import Mathlib

/-!
Shallow embedding of the PropGuard trust-scoring engine
(`backend/app/utils/propguard_scorer.py` and the score-history window of
`backend_textfile_version/propguard_scorer.py`).

Python floats are modelled by `ℚ`; Python dicts that map component names to
values are modelled by association lists in insertion order; a Python value
that may be `None` is modelled by `Option`; a Python computation that may
raise is modelled by `Except PyError`.
-/

namespace PropGuard

/-- Enum `ListingStatus` of the scorer module. -/
inductive ListingStatus where
  | AUTO_APPROVE
  | MANUAL_CHECK
  | AUTO_REJECT
deriving DecidableEq, Repr

/-- The `.value` of a `ListingStatus` member. -/
def ListingStatus.value : ListingStatus → String
  | .AUTO_APPROVE => "AUTO_APPROVE"
  | .MANUAL_CHECK => "MANUAL_CHECK"
  | .AUTO_REJECT => "AUTO_REJECT"

/-- Dataclass `ImageValidationMetrics`. -/
structure ImageValidationMetrics where
  valid_count : ℕ
  duplicate_count : ℕ
  suspicious_count : ℕ
  total_count : ℕ
deriving DecidableEq, Repr

/-- Dataclass `AgentVerificationMetrics`. -/
structure AgentVerificationMetrics where
  is_verified : Bool
  has_license : Bool
  has_reviews : Bool
  total_checks_passed : ℕ
deriving DecidableEq, Repr

/-- Dataclass `CrossPlatformMetrics`. -/
structure CrossPlatformMetrics where
  consistent_count : ℕ
  inconsistent_count : ℕ
  total_platforms : ℕ
deriving DecidableEq, Repr

/-- Result dict of each component scorer: a score and an assessment text. -/
structure ComponentScore where
  score : ℚ
  assessment : String
deriving DecidableEq, Repr

/-- A Python exception raised by the engine. -/
inductive PyError where
  | attributeError
  | typeError
deriving DecidableEq, Repr

/-- Field `self.weights` set in `QualitativeTrustScorer.__init__`. -/
def weights : List (String × ℚ) :=
  [("image_validation", 35), ("agent_verification", 35), ("cross_platform", 30)]

/-- Shape of `self.thresholds` set in `QualitativeTrustScorer.__init__`. -/
structure Thresholds where
  auto_approve : ℚ
  manual_check : ℚ

/-- Values of `self.thresholds`. -/
def thresholds : Thresholds := ⟨80, 40⟩

/-- Field `self.score_window` of the textfile-variant scorer. -/
def score_window : ℕ := 100

/-- Models the Python builtin `round(x, 2)`: round to two decimal places. -/
def round2 (x : ℚ) : ℚ := (round (x * 100) : ℤ) / 100

/-- Method `_get_image_assessment`. -/
def get_image_assessment (_score : ℚ) (metrics : ImageValidationMetrics) : String :=
  if 0 < metrics.suspicious_count then
    "CRITICAL: Presence of suspicious images"
  else if 0 < metrics.duplicate_count then
    "Moderate concerns: Presence of duplicates"
  else
    "Good quality with proper validation"

/-- Method `_get_agent_assessment`. -/
def get_agent_assessment (_score : ℚ) (metrics : AgentVerificationMetrics) : String :=
  if !metrics.is_verified then
    "Failed verification"
  else if !metrics.has_license then
    "Incomplete verification requiring checks"
  else if !metrics.has_reviews then
    "Incomplete verification requiring checks"
  else
    "Verified with varying degrees of confidence"

/-- Method `_get_platform_assessment`. -/
def get_platform_assessment (_score : ℚ) (metrics : CrossPlatformMetrics) : String :=
  if 0 < metrics.inconsistent_count then
    "CRITICAL: Major inconsistencies found across platforms"
  else
    "Consistent across platforms"

/-- Method `_calculate_image_score`. -/
def calculate_image_score (metrics : ImageValidationMetrics) : ComponentScore :=
  if metrics.total_count = 0 then
    ⟨0, "No images provided"⟩
  else
    let valid_frac : ℚ := (metrics.valid_count : ℚ) / (metrics.total_count : ℚ)
    let duplicate_penalty : ℚ :=
      ((metrics.duplicate_count : ℚ) / (metrics.total_count : ℚ)) * (1/2)
    let suspicious_penalty : ℚ := (metrics.suspicious_count : ℚ) / (metrics.total_count : ℚ)
    let score := valid_frac * 100 - duplicate_penalty * 100 - suspicious_penalty * 100
    let score := max 0 (min 100 score)
    ⟨score, get_image_assessment score metrics⟩

/-- Method `_calculate_agent_score`. -/
def calculate_agent_score (metrics : AgentVerificationMetrics) : ComponentScore :=
  let base_score : ℚ :=
    (if metrics.is_verified then 50 else 0)
    + (if metrics.has_license then 30 else 0)
    + (if metrics.has_reviews then 20 else 0)
  let score := min 100 (base_score * ((metrics.total_checks_passed : ℚ) / 3))
  ⟨score, get_agent_assessment score metrics⟩

/-- Method `_calculate_platform_score`. -/
def calculate_platform_score (metrics : CrossPlatformMetrics) : ComponentScore :=
  if metrics.total_platforms = 0 then
    ⟨0, "No cross-platform data available"⟩
  else
    let consistency_frac : ℚ :=
      (metrics.consistent_count : ℚ) / (metrics.total_platforms : ℚ)
    let score := consistency_frac * 100
    ⟨score, get_platform_assessment score metrics⟩

/-- Method `_calculate_total_score`, over a dict whose score entries may be
null (or absent, or whose whole value is falsy): exactly the entries the
Python filter drops are modelled by `none`. -/
def calculate_total_score (component_scores : List (String × Option ℚ)) : ℚ :=
  let valid_components : List (String × ℚ) :=
    component_scores.filterMap fun p => p.2.map fun s => (p.1, s)
  if valid_components.isEmpty then 0
  else
    round2 ((valid_components.map fun p => ((weights.lookup p.1).getD (1/4)) * p.2).sum)

/-- Method `_determine_status`. -/
def determine_status (total_score : ℚ) : ListingStatus :=
  if thresholds.auto_approve ≤ total_score then
    ListingStatus.AUTO_APPROVE
  else if thresholds.manual_check ≤ total_score then
    ListingStatus.MANUAL_CHECK
  else
    ListingStatus.AUTO_REJECT

/-- Tests whether `needle` is a leading segment of `hay` (kernel-computable
helper for the Python substring tests). -/
def listStartsWith : List Char → List Char → Bool
  | [], _ => true
  | _ :: _, [] => false
  | n :: ns, h :: hs => n = h && listStartsWith ns hs

/-- Tests whether `needle` occurs contiguously in `hay`. -/
def listContainsSub (needle : List Char) : List Char → Bool
  | [] => needle.isEmpty
  | h :: hs => listStartsWith needle (h :: hs) || listContainsSub needle hs

/-- Models the Python expression `needle in hay` on strings. -/
def strContainsSub (hay needle : String) : Bool :=
  listContainsSub needle.data hay.data

/-- Models the Python method `str.lower()`. -/
def lowerStr (s : String) : String := ⟨s.data.map Char.toLower⟩

/-- Splits a character list on a separator (the Python `str.split(sep)` for
the single-character separators used here). -/
def splitWords (sep : Char) (acc : List Char) : List Char → List (List Char)
  | [] => [acc.reverse]
  | c :: cs =>
    if c = sep then acc.reverse :: splitWords sep [] cs
    else splitWords sep (c :: acc) cs

/-- Capitalizes one word the way the Python method `str.title()` does: first
character uppercased, the rest lowercased. -/
def capitalizeWord : List Char → List Char
  | [] => []
  | c :: cs => c.toUpper :: cs.map Char.toLower

/-- Joins words with single spaces. -/
def joinWithSpace : List (List Char) → List Char
  | [] => []
  | [w] => w
  | w :: ws => w ++ ' ' :: joinWithSpace ws

/-- Models `component.replace(underscore, space).title()`. -/
def titleize (component : String) : String :=
  let replaced := component.data.map fun c => if c = '_' then ' ' else c
  ⟨joinWithSpace ((splitWords ' ' [] replaced).map capitalizeWord)⟩

/-- Method `_generate_assessment`. -/
def generate_assessment (component_scores : List (String × ComponentScore)) : String :=
  component_scores.foldl
    (fun acc p =>
      acc ++ "=== " ++ titleize p.1 ++ " ===\n"
        ++ p.2.assessment ++ "\n"
        ++ "Score: " ++ toString p.2.score ++ "/100\n\n")
    ""

/-- Method `_generate_summary`, as a function of the values the body reads
from its `validation_data` dict (`total_score`, `status`, and
`component_evaluations`, the last defaulting to the empty dict when the key
is absent). -/
def generate_summary (total_score : ℚ) (status : ListingStatus)
    (component_evaluations : List (String × ComponentScore)) : String :=
  let summary := "Trust Score: " ++ toString total_score ++ "/100 - Status: "
    ++ status.value ++ "\n\n"
  let summary := summary ++ "Component Scores:\n"
  component_evaluations.foldl
    (fun acc p => acc ++ "- " ++ titleize p.1 ++ ": " ++ toString p.2.score ++ "/100\n")
    summary

/-- Models the lookup `component_scores.get(name).get(score-key, 0)` with the empty dict default. -/
def lookupScore (component_evaluations : List (String × ComponentScore))
    (name : String) : ℚ :=
  match component_evaluations.lookup name with
  | some c => c.score
  | none => 0

/-- Method `_generate_recommendations`, as a function of the values the body
reads from its `validation_data` dict (`component_evaluations` defaulting to
the empty dict, `total_score` defaulting to 0). -/
def generate_recommendations (component_evaluations : List (String × ComponentScore))
    (total_score : ℚ) : List String :=
  let recommendations : List String := []
  let recommendations := recommendations ++ ["Overall Trust Score: " ++ toString total_score ++ "/100"]
  let image_score := lookupScore component_evaluations "image_validation"
  let recommendations :=
    if image_score < 30 then
      recommendations ++ ["CRITICAL: Insufficient or suspicious property images. Request complete image set and verify authenticity"]
    else if image_score < 70 then
      recommendations ++ ["Request additional high-quality property images and verify their authenticity"]
    else recommendations
  let agent_score := lookupScore component_evaluations "agent_verification"
  let recommendations :=
    if agent_score ≤ 0 then
      recommendations ++ ["URGENT: Agent verification failed. Verify credentials and licensing information immediately"]
    else if agent_score < 50 then
      recommendations ++ ["Additional agent verification required. Check professional history and credentials"]
    else recommendations
  let platform_score := lookupScore component_evaluations "cross_platform"
  let recommendations :=
    if platform_score < 30 then
      recommendations ++ ["CRITICAL: Major inconsistencies found across platforms. Detailed cross-reference check required"]
    else if platform_score < 50 then
      recommendations ++ ["Cross-reference listing details across multiple platforms to verify consistency"]
    else recommendations
  let recommendations :=
    if component_evaluations.all (fun p => 30 ≤ p.2.score ∧ p.2.score < 80) then
      recommendations ++ ["Perform standard verification procedures before proceeding"]
    else recommendations
  let recommendations :=
    if recommendations.isEmpty
        ∧ component_evaluations.all (fun p => 80 ≤ p.2.score) then
      recommendations ++ ["All validation checks passed. Proceed with standard processing"]
    else recommendations
  recommendations

/-- Method `_update_score_history` of the textfile-variant scorer: append,
then `pop(0)` when the window length exceeds `score_window`. -/
def update_score_history (recent_scores : List ℚ) (score : ℚ) : List ℚ :=
  let recent_scores := recent_scores ++ [score]
  if score_window < recent_scores.length then recent_scores.drop 1 else recent_scores

/-- The dynamically-typed `image_validation` argument of `evaluate_listing`:
either the free-text report the image validator actually produces (the
parameter is annotated `str`) or an `ImageValidationMetrics` object. -/
inductive ImageSignal where
  | text (s : String)
  | metrics (m : ImageValidationMetrics)
deriving DecidableEq, Repr

/-- The `agent_verification` dict argument: `empty` models a falsy dict or
one without the agent-verification key; `record` carries the
lister-verification and additional-checks texts. -/
inductive AgentSignal where
  | empty
  | record (lister_verification : String) (additional_checks : String)
deriving DecidableEq, Repr

/-- The dynamically-typed `cross_platform` argument: either the free-text
report the cross-platform validator produces or a `CrossPlatformMetrics`
object. -/
inductive PlatformSignal where
  | text (s : String)
  | metrics (m : CrossPlatformMetrics)
deriving DecidableEq, Repr

/-- Method `_convert_to_agent_metrics`: substring-derived flags, with the
try/except fallback to the all-false record for missing data. -/
def convert_to_agent_metrics (data : AgentSignal) : AgentVerificationMetrics :=
  match data with
  | .empty => ⟨false, false, false, 0⟩
  | .record verification_text additional_checks =>
    let is_verified := strContainsSub (lowerStr verification_text) "verified"
      && !(strContainsSub (lowerStr verification_text) "unavailable")
    let has_license := strContainsSub (lowerStr verification_text) "license"
      || strContainsSub (lowerStr verification_text) "licensed"
    let has_reviews := strContainsSub (lowerStr additional_checks) "review"
    let total_checks :=
      (if is_verified then 1 else 0) + (if has_license then 1 else 0)
      + (if has_reviews then 1 else 0)
      + (if strContainsSub (lowerStr additional_checks) "experience" then 1 else 0)
      + (if strContainsSub (lowerStr additional_checks) "specialization" then 1 else 0)
    ⟨is_verified, has_license, has_reviews, total_checks⟩

/-- Call site `_calculate_image_score(image_metrics)` in `evaluate_listing`,
where `image_metrics` is the raw argument. On a string, the attribute access
`metrics.total_count` raises `AttributeError`. -/
def calculate_image_score_dyn : ImageSignal → Except PyError ComponentScore
  | .text _ => Except.error PyError.attributeError
  | .metrics m => Except.ok (calculate_image_score m)

/-- Call site `_calculate_platform_score(platform_metrics)` in
`evaluate_listing`, where `platform_metrics` is the raw argument. On a
string, the attribute access `metrics.total_platforms` raises
`AttributeError`. -/
def calculate_platform_score_dyn : PlatformSignal → Except PyError ComponentScore
  | .text _ => Except.error PyError.attributeError
  | .metrics m => Except.ok (calculate_platform_score m)

/-- Method `_check_missing_components`. The Python membership test
`key in value` is a substring test on a string and raises `TypeError` on a
dataclass instance. -/
def check_missing_components (image_validation : ImageSignal)
    (agent_verification : AgentSignal) (cross_platform : PlatformSignal) :
    Except PyError (List String) := do
  let imageMissing ←
    match image_validation with
    | .text s => pure (s.isEmpty || !(strContainsSub s "image_validation_data"))
    | .metrics _ => Except.error PyError.typeError
  let agentMissing :=
    match agent_verification with
    | .empty => true
    | .record _ _ => false
  let platformMissing ←
    match cross_platform with
    | .text s => pure (s.isEmpty || !(strContainsSub s "cross_platform"))
    | .metrics _ => Except.error PyError.typeError
  pure ((if imageMissing then ["image_validation"] else [])
    ++ (if agentMissing then ["agent_verification"] else [])
    ++ (if platformMissing then ["cross_platform"] else []))

/-- The result dict of `evaluate_listing`. -/
structure EvaluationResult where
  total_score : ℚ
  status : ListingStatus
  assessment : String
  component_evaluations : List (String × ComponentScore)
  summary : String
  recommendations : List String
  missing_components : List String
deriving Repr

/-- Method `evaluate_listing`. The raw `image_validation` and
`cross_platform` arguments are fed to the component scorers without
conversion (only the agent dict is converted); the dicts handed to
`_generate_summary` and `_generate_recommendations` lack the
component-evaluations and total-score keys those functions read, so they
fall back to their defaults (the empty dict and, for recommendations,
total 0). -/
def evaluate_listing (image_validation : ImageSignal)
    (agent_verification : AgentSignal) (cross_platform : PlatformSignal) :
    Except PyError EvaluationResult := do
  let agent_metrics := convert_to_agent_metrics agent_verification
  let image_eval ← calculate_image_score_dyn image_validation
  let agent_eval := calculate_agent_score agent_metrics
  let platform_eval ← calculate_platform_score_dyn cross_platform
  let component_scores : List (String × ComponentScore) :=
    [("image_validation", image_eval), ("agent_verification", agent_eval),
     ("cross_platform", platform_eval)]
  let total_score :=
    calculate_total_score (component_scores.map fun p => (p.1, some p.2.score))
  let status := determine_status total_score
  let missing ← check_missing_components image_validation agent_verification cross_platform
  pure
    { total_score := total_score
      status := status
      assessment := generate_assessment component_scores
      component_evaluations := component_scores
      summary := generate_summary total_score status []
      recommendations := generate_recommendations [] total_score
      missing_components := missing }

/-- The fixed per-signal weights exactly as the spec states them
(image = 35, agent = 35, platform = 30). Spec-side definition, used to
compare the aggregator against the spec wording. -/
def claimWeight : String → ℚ
  | "image_validation" => 35
  | "agent_verification" => 35
  | "cross_platform" => 30
  | _ => 0

/-- The aggregation rule exactly as the spec words it: discard entries whose
score is absent/null; if none remain the total is 0; otherwise the weighted
sum over the remaining signals with the fixed weights, rounded to 2 decimal
places. Spec-side definition for the refinement comparison. -/
def total_score_per_spec (component_scores : List (String × Option ℚ)) : ℚ :=
  let remaining := component_scores.filterMap fun p => p.2.map fun s => (p.1, s)
  if remaining = [] then 0
  else round2 ((remaining.map fun p => claimWeight p.1 * p.2).sum)

/-- The recommendation messages the image branch of
`_generate_recommendations` emits at a given image score. -/
def image_rec_messages (s : ℚ) : List String :=
  if s < 30 then
    ["CRITICAL: Insufficient or suspicious property images. Request complete image set and verify authenticity"]
  else if s < 70 then
    ["Request additional high-quality property images and verify their authenticity"]
  else []

/-- The recommendation messages the agent branch of
`_generate_recommendations` emits at a given agent score: the urgent message
is guarded by the score being at most 0, not by it being below 30. -/
def agent_rec_messages (s : ℚ) : List String :=
  if s ≤ 0 then
    ["URGENT: Agent verification failed. Verify credentials and licensing information immediately"]
  else if s < 50 then
    ["Additional agent verification required. Check professional history and credentials"]
  else []

/-- The recommendation messages the platform branch of
`_generate_recommendations` emits at a given platform score. -/
def platform_rec_messages (s : ℚ) : List String :=
  if s < 30 then
    ["CRITICAL: Major inconsistencies found across platforms. Detailed cross-reference check required"]
  else if s < 50 then
    ["Cross-reference listing details across multiple platforms to verify consistency"]
  else []

/-- The generic note `_generate_recommendations` appends when every available
component score lies in the interval from 30 (inclusive) to 80 (exclusive). -/
def standard_note_messages (component_evaluations : List (String × ComponentScore)) : List String :=
  if component_evaluations.all (fun p => 30 ≤ p.2.score ∧ p.2.score < 80) then
    ["Perform standard verification procedures before proceeding"]
  else []

/-- Pushing a conditional two-way append out of the branches. -/
theorem ite_append_ite (c₁ c₂ : Prop) [Decidable c₁] [Decidable c₂] (l x y : List String) :
    (if c₁ then l ++ x else if c₂ then l ++ y else l)
      = l ++ (if c₁ then x else if c₂ then y else []) := by
  split_ifs <;> simp

/-- Pushing a conditional one-way append out of the branches. -/
theorem ite_append_one (c : Prop) [Decidable c] (l x : List String) :
    (if c then l ++ x else l) = l ++ (if c then x else []) := by
  split_ifs <;> simp

/-- Structure lemma: the recommendation list is exactly the header followed by
the image, agent and platform branch messages and the standard note. The
final all-checks-passed branch contributes nothing because its guard demands
an empty list while the header is always present. -/
theorem generate_recommendations_structure (cs : List (String × ComponentScore)) (t : ℚ) :
    generate_recommendations cs t =
      ("Overall Trust Score: " ++ toString t ++ "/100")
        :: (image_rec_messages (lookupScore cs "image_validation")
          ++ agent_rec_messages (lookupScore cs "agent_verification")
          ++ platform_rec_messages (lookupScore cs "cross_platform")
          ++ standard_note_messages cs) := by
  simp only [generate_recommendations]
  rw [ite_append_ite, ite_append_ite, ite_append_ite, ite_append_one, ite_append_one]
  simp [image_rec_messages, agent_rec_messages, platform_rec_messages,
    standard_note_messages, List.append_assoc]

/-- Rolling-window lemma: folding `update_score_history` from any window of
length at most 100 keeps exactly the last 100 entries of the concatenation. -/
theorem foldl_update_score_history_eq_drop (xs : List ℚ) : ∀ acc : List ℚ,
    acc.length ≤ 100 →
    List.foldl update_score_history acc xs
      = (acc ++ xs).drop (acc.length + xs.length - 100) := by
  induction xs with
  | nil =>
    intro acc h
    simp [Nat.sub_eq_zero_of_le h]
  | cons x xs ih =>
    intro acc h
    rw [List.foldl_cons]
    show List.foldl update_score_history
      (if score_window < (acc ++ [x]).length then (acc ++ [x]).drop 1 else acc ++ [x]) xs = _
    simp only [score_window]
    by_cases hlen : 100 < (acc ++ [x]).length
    · rw [if_pos hlen]
      rw [ih _ (by simp at hlen ⊢; omega)]
      rw [← List.drop_append_of_le_length (by simp)]
      rw [List.drop_drop]
      have hx : (acc ++ [x]) ++ xs = acc ++ (x :: xs) := by simp
      rw [hx]
      congr 1
      simp at hlen ⊢
      omega
    · rw [if_neg hlen]
      rw [ih _ (by simp at hlen ⊢; omega)]
      have hx : (acc ++ [x]) ++ xs = acc ++ (x :: xs) := by simp
      rw [hx]
      congr 1
      simp
      omega

/-- C1: the claim says `evaluate_listing` never raises and always returns a
well-formed result; in the code the raw string signals reach
`_calculate_image_score` unconverted, so the attribute access raises
`AttributeError` on the free-text reports the routes pass, and metrics
objects instead raise `TypeError` inside `_check_missing_components`. This
theorem evaluates the code at both failing inputs. -/
theorem evaluate_listing_raises_on_raw_signals :
    evaluate_listing (ImageSignal.text "") AgentSignal.empty (PlatformSignal.text "")
        = Except.error PyError.attributeError ∧
    evaluate_listing (ImageSignal.metrics ⟨1, 0, 0, 1⟩) AgentSignal.empty
        (PlatformSignal.metrics ⟨1, 0, 1⟩) = Except.error PyError.typeError :=
  ⟨rfl, rfl⟩

/-- C2 counterexample: an unverified agent with a license, reviews and three
passed checks scores 50, not 0, refuting the claim that the agent score is 0
whenever is_verified is false regardless of the other flags. -/
theorem agent_score_nonzero_when_unverified_cex :
    (calculate_agent_score ⟨false, true, true, 3⟩).score = 50 ∧
    (calculate_agent_score ⟨false, true, true, 3⟩).score ≠ 0 := by
  norm_num [calculate_agent_score]

/-- C2 amended: the agent score is 0 whenever is_verified, has_license and
has_reviews are all false, for every value of total_checks_passed. -/
theorem agent_score_zero_of_all_flags_false (n : ℕ) :
    (calculate_agent_score ⟨false, false, false, n⟩).score = 0 := by
  simp [calculate_agent_score]

/-- C3: with no images the image score is 0 with the no-images assessment;
otherwise the score is 100 times the valid fraction minus 50 times the
duplicate fraction minus 100 times the suspicious fraction, clamped to the
interval from 0 to 100. -/
theorem image_score_formula (m : ImageValidationMetrics) :
    (m.total_count = 0 → calculate_image_score m = ⟨0, "No images provided"⟩) ∧
    (m.total_count ≠ 0 → (calculate_image_score m).score =
      max 0 (min 100
        (100 * ((m.valid_count : ℚ) / (m.total_count : ℚ))
          - 50 * ((m.duplicate_count : ℚ) / (m.total_count : ℚ))
          - 100 * ((m.suspicious_count : ℚ) / (m.total_count : ℚ))))) := by
  constructor
  · intro h
    simp [calculate_image_score, h]
  · intro h
    simp only [calculate_image_score, h, if_false]
    ring_nf

/-- C3 witness: both branches of the formula at concrete metrics. -/
theorem image_score_formula_witness :
    (calculate_image_score ⟨0, 0, 0, 0⟩ = ⟨0, "No images provided"⟩) ∧
    ((calculate_image_score ⟨8, 1, 0, 9⟩).score =
      max 0 (min 100 (100 * ((8:ℚ)/9) - 50 * ((1:ℚ)/9) - 100 * ((0:ℚ)/9)))) := by
  constructor
  · exact (image_score_formula ⟨0, 0, 0, 0⟩).1 rfl
  · have h := (image_score_formula ⟨8, 1, 0, 9⟩).2 (by norm_num)
    simpa using h

/-- C4: on any mapping whose keys are among the three known signals, the
aggregator agrees with the rule as the spec words it: null entries are
discarded, an empty remainder yields 0, and otherwise the weighted sum with
the fixed weights 35, 35 and 30 is rounded to 2 decimal places; signals
missing from the input simply do not appear in the sum. -/
theorem total_score_refines_spec (cs : List (String × Option ℚ))
    (h : ∀ p ∈ cs, p.1 = "image_validation" ∨ p.1 = "agent_verification"
      ∨ p.1 = "cross_platform") :
    calculate_total_score cs = total_score_per_spec cs := by
  simp only [calculate_total_score, total_score_per_spec]
  have hmap : ((cs.filterMap fun p => p.2.map fun s => (p.1, s)).map
        fun p => ((weights.lookup p.1).getD (1/4)) * p.2)
      = ((cs.filterMap fun p => p.2.map fun s => (p.1, s)).map
        fun p => claimWeight p.1 * p.2) := by
    apply List.map_congr_left
    intro p hp
    rcases List.mem_filterMap.mp hp with ⟨a, ha, hm⟩
    rcases ha2 : a.2 with _ | s
    · rw [ha2] at hm; simp at hm
    · rw [ha2] at hm
      simp only [Option.map_some', Option.some.injEq] at hm
      rw [← hm]
      rcases h a ha with h1 | h1 | h1 <;>
        simp [h1, weights, claimWeight, List.lookup]
  rw [hmap]
  by_cases hempty : (cs.filterMap fun p => p.2.map fun s => (p.1, s)) = []
  · simp [hempty]
  · simp [hempty, List.isEmpty_iff]

/-- C4 witness: an available image score of 50 with a null agent entry gives
35 times 50, and the null entry is discarded rather than zero-scored. -/
theorem total_score_refines_spec_witness :
    calculate_total_score [("image_validation", some (50:ℚ)), ("agent_verification", none)]
      = 1750 := by
  rw [total_score_refines_spec _ (by decide)]
  simp [total_score_per_spec, claimWeight]
  norm_num [round2, round_eq]

/-- C5: the status classifier is the ordered threshold function — at least 80
auto-approves, at least 40 but below 80 goes to manual check, below 40
auto-rejects — including the boundary cases 80, 79.99, 40 and 39.99. -/
theorem determine_status_threshold_spec (t : ℚ) :
    (determine_status t = ListingStatus.AUTO_APPROVE ↔ 80 ≤ t) ∧
    (determine_status t = ListingStatus.MANUAL_CHECK ↔ 40 ≤ t ∧ t < 80) ∧
    (determine_status t = ListingStatus.AUTO_REJECT ↔ t < 40) ∧
    determine_status 80 = ListingStatus.AUTO_APPROVE ∧
    determine_status (7999/100) = ListingStatus.MANUAL_CHECK ∧
    determine_status 40 = ListingStatus.MANUAL_CHECK ∧
    determine_status (3999/100) = ListingStatus.AUTO_REJECT := by
  simp only [determine_status, thresholds]
  norm_num
  split_ifs <;> simp_all <;> linarith

/-- C6 counterexample: with an agent score of 10 — below 30 — the code emits
only the lower-severity agent message; no entry beyond the header carries a
CRITICAL severity marker, refuting the claimed below-30 CRITICAL rule for
the agent signal. -/
theorem recommendations_agent_critical_cex :
    (generate_recommendations
        [("image_validation", ⟨100, "ok"⟩), ("agent_verification", ⟨10, "weak"⟩),
         ("cross_platform", ⟨100, "ok"⟩)] 100 =
      ["Overall Trust Score: " ++ toString (100 : ℚ) ++ "/100",
       "Additional agent verification required. Check professional history and credentials"]) ∧
    (∀ r ∈ (generate_recommendations
        [("image_validation", ⟨100, "ok"⟩), ("agent_verification", ⟨10, "weak"⟩),
         ("cross_platform", ⟨100, "ok"⟩)] 100).tail,
      listStartsWith "CRITICAL".data r.data = false) := by
  refine ⟨rfl, ?_⟩
  intro r hr
  rw [show (generate_recommendations
        [("image_validation", ⟨100, "ok"⟩), ("agent_verification", ⟨10, "weak"⟩),
         ("cross_platform", ⟨100, "ok"⟩)] 100).tail =
      ["Additional agent verification required. Check professional history and credentials"]
    from rfl] at hr
  simp only [List.mem_singleton] at hr
  subst hr
  rfl

/-- C6 amended: per signal, in fixed order, the emitted messages are exactly
these — image: below 30 a CRITICAL message, otherwise below 70 a
lower-severity message; agent: at most 0 an URGENT message, otherwise below
50 a lower-severity message; platform: below 30 a CRITICAL message,
otherwise below 50 a lower-severity message; at or above those bounds a
signal emits nothing. -/
theorem recommendations_per_signal_messages (cs : List (String × ComponentScore)) (t : ℚ) :
    generate_recommendations cs t =
      ("Overall Trust Score: " ++ toString t ++ "/100")
        :: (image_rec_messages (lookupScore cs "image_validation")
          ++ agent_rec_messages (lookupScore cs "agent_verification")
          ++ platform_rec_messages (lookupScore cs "cross_platform")
          ++ standard_note_messages cs) :=
  generate_recommendations_structure cs t

/-- C7: the recommendation list always begins with the overall-score header,
but the all-checks-passed note is never appended — even when every component
score is 100 the output is just the header, because the guard of the note
requires the list to be empty, which the header makes impossible. -/
theorem recommendations_header_and_missing_note :
    (∀ (cs : List (String × ComponentScore)) (t : ℚ),
      ∃ l, generate_recommendations cs t =
        ("Overall Trust Score: " ++ toString t ++ "/100") :: l) ∧
    generate_recommendations
        [("image_validation", ⟨100, "a"⟩), ("agent_verification", ⟨100, "b"⟩),
         ("cross_platform", ⟨100, "c"⟩)] 100 =
      ["Overall Trust Score: " ++ toString (100 : ℚ) ++ "/100"] :=
  ⟨fun cs t => ⟨_, generate_recommendations_structure cs t⟩, rfl⟩

/-- C8: recording 105 scores into an empty window leaves exactly the last 100
in insertion order — length 100 with the oldest 5 evicted first-in
first-out. -/
theorem score_history_window_fifo (xs : List ℚ) (h : xs.length = 105) :
    List.foldl update_score_history [] xs = xs.drop 5 ∧
    (List.foldl update_score_history [] xs).length = 100 := by
  have hh := foldl_update_score_history_eq_drop xs [] (by simp)
  simp only [List.nil_append, List.length_nil, Nat.zero_add] at hh
  rw [hh, h]
  norm_num
  omega

/-- C8 witness: the concrete sequence 0 to 104. -/
theorem score_history_window_fifo_witness :
    List.foldl update_score_history [] (List.map (fun n : ℕ => (n : ℚ)) (List.range 105)) =
      (List.map (fun n : ℕ => (n : ℚ)) (List.range 105)).drop 5 ∧
    (List.foldl update_score_history []
      (List.map (fun n : ℕ => (n : ℚ)) (List.range 105))).length = 100 :=
  score_history_window_fifo _ (by rw [List.length_map, List.length_range])

/-- C9: holding valid_count and total_count fixed with total_count positive,
the image score is monotonically non-increasing in duplicate_count and
suspicious_count. -/
theorem image_score_antitone_in_penalties (v t d₁ d₂ s₁ s₂ : ℕ) (ht : 0 < t)
    (hd : d₁ ≤ d₂) (hs : s₁ ≤ s₂) :
    (calculate_image_score ⟨v, d₂, s₂, t⟩).score
      ≤ (calculate_image_score ⟨v, d₁, s₁, t⟩).score := by
  have htQ : (0:ℚ) < (t:ℚ) := by exact_mod_cast ht
  simp only [calculate_image_score]
  rw [if_neg (by omega), if_neg (by omega)]
  dsimp only
  apply max_le_max le_rfl
  apply min_le_min le_rfl
  have hdq : (d₁:ℚ)/(t:ℚ) ≤ (d₂:ℚ)/(t:ℚ) :=
    (div_le_div_iff_of_pos_right htQ).mpr (by exact_mod_cast hd)
  have hsq : (s₁:ℚ)/(t:ℚ) ≤ (s₂:ℚ)/(t:ℚ) :=
    (div_le_div_iff_of_pos_right htQ).mpr (by exact_mod_cast hs)
  linarith

/-- C9 witness: adding a duplicate and a suspicious image to a two-image set
cannot raise the score. -/
theorem image_score_antitone_in_penalties_witness :
    (calculate_image_score ⟨1, 1, 1, 2⟩).score ≤ (calculate_image_score ⟨1, 0, 0, 2⟩).score :=
  image_score_antitone_in_penalties 1 2 0 1 0 1 (by norm_num) (by norm_num) (by norm_num)

/-- C10: a component outside the fixed weight table is not rejected by the
aggregator — alongside a known signal it contributes with the default weight
0.25. -/
theorem total_score_unknown_component_default_weight (name : String) (a s : ℚ)
    (h1 : name ≠ "image_validation") (h2 : name ≠ "agent_verification")
    (h3 : name ≠ "cross_platform") :
    calculate_total_score [("image_validation", some a), (name, some s)]
      = round2 (35 * a + (1/4) * s) := by
  have b1 : (name == "image_validation") = false := by simp [h1]
  have b2 : (name == "agent_verification") = false := by simp [h2]
  have b3 : (name == "cross_platform") = false := by simp [h3]
  simp [calculate_total_score, weights, List.lookup, b1, b2, b3]

/-- C10 witness: a review-analysis entry of 40 joins an image score of 50 as
35 times 50 plus a quarter of 40, giving 1760. -/
theorem total_score_unknown_component_default_weight_witness :
    calculate_total_score [("image_validation", some (50:ℚ)), ("review_analysis", some 40)]
      = 1760 := by
  rw [total_score_unknown_component_default_weight "review_analysis" 50 40
    (by decide) (by decide) (by decide)]
  norm_num [round2, round_eq]

end PropGuard
